import Mathlib

/-!
Verification of the headless terminal host ("ht"): a shallow embedding of
the key encoder, the stdio command protocol, the non-blocking I/O shim,
the VT facade and the Session event machinery, translated from the Rust
sources (src/command.rs, src/api.rs, src/nbio.rs, src/vt.rs,
src/session.rs), together with theorems settling the specified properties.
-/

namespace Ht

/-- Input sequence (src/command.rs `InputSeq`): a `Standard` byte string, or a
`Cursor` pair carrying the normal and the application-mode encodings. -/
inductive InputSeq where
  | standard (seq : String)
  | cursor (seq1 seq2 : String)
deriving Repr, DecidableEq

/-- src/command.rs `standard_key`. -/
def standard_key (seq : String) : InputSeq := .standard seq

/-- src/command.rs `cursor_key`. -/
def cursor_key (seq1 seq2 : String) : InputSeq := .cursor seq1 seq2

/-- The literal arms of the `match key.as_str()` table in src/command.rs
`parse_key` (identical in src/api.rs `parse_key`), in source order; a Rust
match over disjoint string literals is equivalent to a first-match lookup
in this ordered association list. -/
def keyTable : List (String × InputSeq) := [
  ("C-@", standard_key "\x00"),
  ("C-Space", standard_key "\x00"),
  ("^@", standard_key "\x00"),
  ("C-[", standard_key "\x1b"),
  ("Escape", standard_key "\x1b"),
  ("^[", standard_key "\x1b"),
  ("C-\\", standard_key "\x1c"),
  ("^\\", standard_key "\x1c"),
  ("C-]", standard_key "\x1d"),
  ("^]", standard_key "\x1d"),
  ("C-^", standard_key "\x1e"),
  ("C-/", standard_key "\x1e"),
  ("C--", standard_key "\x1f"),
  ("C-_", standard_key "\x1f"),
  ("Tab", standard_key "\x09"),
  ("Enter", standard_key "\x0d"),
  ("Space", standard_key " "),
  ("Left", cursor_key "\x1b[D" "\x1bOD"),
  ("Right", cursor_key "\x1b[C" "\x1bOC"),
  ("Up", cursor_key "\x1b[A" "\x1bOA"),
  ("Down", cursor_key "\x1b[B" "\x1bOB"),
  ("C-Left", standard_key "\x1b[1;5D"),
  ("C-Right", standard_key "\x1b[1;5C"),
  ("S-Left", standard_key "\x1b[1;2D"),
  ("S-Right", standard_key "\x1b[1;2C"),
  ("C-Up", standard_key "\x1b[1;5A"),
  ("C-Down", standard_key "\x1b[1;5B"),
  ("S-Up", standard_key "\x1b[1;2A"),
  ("S-Down", standard_key "\x1b[1;2B"),
  ("A-Left", standard_key "\x1b[1;3D"),
  ("A-Right", standard_key "\x1b[1;3C"),
  ("A-Up", standard_key "\x1b[1;3A"),
  ("A-Down", standard_key "\x1b[1;3B"),
  ("C-S-Left", standard_key "\x1b[1;6D"),
  ("S-C-Left", standard_key "\x1b[1;6D"),
  ("C-S-Right", standard_key "\x1b[1;6C"),
  ("S-C-Right", standard_key "\x1b[1;6C"),
  ("C-S-Up", standard_key "\x1b[1;6A"),
  ("S-C-Up", standard_key "\x1b[1;6A"),
  ("C-S-Down", standard_key "\x1b[1;6B"),
  ("S-C-Down", standard_key "\x1b[1;6B"),
  ("C-A-Left", standard_key "\x1b[1;7D"),
  ("A-C-Left", standard_key "\x1b[1;7D"),
  ("C-A-Right", standard_key "\x1b[1;7C"),
  ("A-C-Right", standard_key "\x1b[1;7C"),
  ("C-A-Up", standard_key "\x1b[1;7A"),
  ("A-C-Up", standard_key "\x1b[1;7A"),
  ("C-A-Down", standard_key "\x1b[1;7B"),
  ("A-C-Down", standard_key "\x1b[1;7B"),
  ("A-S-Left", standard_key "\x1b[1;4D"),
  ("S-A-Left", standard_key "\x1b[1;4D"),
  ("A-S-Right", standard_key "\x1b[1;4C"),
  ("S-A-Right", standard_key "\x1b[1;4C"),
  ("A-S-Up", standard_key "\x1b[1;4A"),
  ("S-A-Up", standard_key "\x1b[1;4A"),
  ("A-S-Down", standard_key "\x1b[1;4B"),
  ("S-A-Down", standard_key "\x1b[1;4B"),
  ("C-A-S-Left", standard_key "\x1b[1;8D"),
  ("C-S-A-Left", standard_key "\x1b[1;8D"),
  ("A-C-S-Left", standard_key "\x1b[1;8D"),
  ("S-C-A-Left", standard_key "\x1b[1;8D"),
  ("A-S-C-Left", standard_key "\x1b[1;8D"),
  ("S-A-C-Left", standard_key "\x1b[1;8D"),
  ("C-A-S-Right", standard_key "\x1b[1;8C"),
  ("C-S-A-Right", standard_key "\x1b[1;8C"),
  ("A-C-S-Right", standard_key "\x1b[1;8C"),
  ("S-C-A-Right", standard_key "\x1b[1;8C"),
  ("A-S-C-Right", standard_key "\x1b[1;8C"),
  ("S-A-C-Right", standard_key "\x1b[1;8C"),
  ("C-A-S-Up", standard_key "\x1b[1;8A"),
  ("C-S-A-Up", standard_key "\x1b[1;8A"),
  ("A-C-S-Up", standard_key "\x1b[1;8A"),
  ("S-C-A-Up", standard_key "\x1b[1;8A"),
  ("A-S-C-Up", standard_key "\x1b[1;8A"),
  ("S-A-C-Up", standard_key "\x1b[1;8A"),
  ("C-A-S-Down", standard_key "\x1b[1;8B"),
  ("C-S-A-Down", standard_key "\x1b[1;8B"),
  ("A-C-S-Down", standard_key "\x1b[1;8B"),
  ("S-C-A-Down", standard_key "\x1b[1;8B"),
  ("A-S-C-Down", standard_key "\x1b[1;8B"),
  ("S-A-C-Down", standard_key "\x1b[1;8B"),
  ("F1", standard_key "\x1bOP"),
  ("F2", standard_key "\x1bOQ"),
  ("F3", standard_key "\x1bOR"),
  ("F4", standard_key "\x1bOS"),
  ("F5", standard_key "\x1b[15~"),
  ("F6", standard_key "\x1b[17~"),
  ("F7", standard_key "\x1b[18~"),
  ("F8", standard_key "\x1b[19~"),
  ("F9", standard_key "\x1b[20~"),
  ("F10", standard_key "\x1b[21~"),
  ("F11", standard_key "\x1b[23~"),
  ("F12", standard_key "\x1b[24~"),
  ("C-F1", standard_key "\x1b[1;5P"),
  ("C-F2", standard_key "\x1b[1;5Q"),
  ("C-F3", standard_key "\x1b[1;5R"),
  ("C-F4", standard_key "\x1b[1;5S"),
  ("C-F5", standard_key "\x1b[15;5~"),
  ("C-F6", standard_key "\x1b[17;5~"),
  ("C-F7", standard_key "\x1b[18;5~"),
  ("C-F8", standard_key "\x1b[19;5~"),
  ("C-F9", standard_key "\x1b[20;5~"),
  ("C-F10", standard_key "\x1b[21;5~"),
  ("C-F11", standard_key "\x1b[23;5~"),
  ("C-F12", standard_key "\x1b[24;5~"),
  ("S-F1", standard_key "\x1b[1;2P"),
  ("S-F2", standard_key "\x1b[1;2Q"),
  ("S-F3", standard_key "\x1b[1;2R"),
  ("S-F4", standard_key "\x1b[1;2S"),
  ("S-F5", standard_key "\x1b[15;2~"),
  ("S-F6", standard_key "\x1b[17;2~"),
  ("S-F7", standard_key "\x1b[18;2~"),
  ("S-F8", standard_key "\x1b[19;2~"),
  ("S-F9", standard_key "\x1b[20;2~"),
  ("S-F10", standard_key "\x1b[21;2~"),
  ("S-F11", standard_key "\x1b[23;2~"),
  ("S-F12", standard_key "\x1b[24;2~"),
  ("A-F1", standard_key "\x1b[1;3P"),
  ("A-F2", standard_key "\x1b[1;3Q"),
  ("A-F3", standard_key "\x1b[1;3R"),
  ("A-F4", standard_key "\x1b[1;3S"),
  ("A-F5", standard_key "\x1b[15;3~"),
  ("A-F6", standard_key "\x1b[17;3~"),
  ("A-F7", standard_key "\x1b[18;3~"),
  ("A-F8", standard_key "\x1b[19;3~"),
  ("A-F9", standard_key "\x1b[20;3~"),
  ("A-F10", standard_key "\x1b[21;3~"),
  ("A-F11", standard_key "\x1b[23;3~"),
  ("A-F12", standard_key "\x1b[24;3~"),
  ("Home", cursor_key "\x1b[H" "\x1bOH"),
  ("C-Home", standard_key "\x1b[1;5H"),
  ("S-Home", standard_key "\x1b[1;2H"),
  ("A-Home", standard_key "\x1b[1;3H"),
  ("End", cursor_key "\x1b[F" "\x1bOF"),
  ("C-End", standard_key "\x1b[1;5F"),
  ("S-End", standard_key "\x1b[1;2F"),
  ("A-End", standard_key "\x1b[1;3F"),
  ("PageUp", standard_key "\x1b[5~"),
  ("C-PageUp", standard_key "\x1b[5;5~"),
  ("S-PageUp", standard_key "\x1b[5;2~"),
  ("A-PageUp", standard_key "\x1b[5;3~"),
  ("PageDown", standard_key "\x1b[6~"),
  ("C-PageDown", standard_key "\x1b[6;5~"),
  ("S-PageDown", standard_key "\x1b[6;2~"),
  ("A-PageDown", standard_key "\x1b[6;3~")]

/-- The fallback arm of src/command.rs `parse_key`: the `match chars.as_slice()`
over the collected characters of the key, with its range guards.  Grouping the
two `['C', '-', k]` range patterns (and the two `['^', k]` ones) into one arm
with an if-chain is equivalent to the Rust ordered patterns because the later
slice patterns differ in head or length. -/
def fallback_key (key : String) : InputSeq :=
  match key.data with
  | ['C', '-', k] =>
    if 'a' ≤ k && k ≤ 'z' then standard_key (String.singleton (Char.ofNat (k.toNat - 0x60)))
    else if 'A' ≤ k && k ≤ 'Z' then standard_key (String.singleton (Char.ofNat (k.toNat - 0x40)))
    else standard_key key
  | ['^', k] =>
    if 'a' ≤ k && k ≤ 'z' then standard_key (String.singleton (Char.ofNat (k.toNat - 0x60)))
    else if 'A' ≤ k && k ≤ 'Z' then standard_key (String.singleton (Char.ofNat (k.toNat - 0x40)))
    else standard_key key
  | ['A', '-', k] => standard_key ("\x1b".push k)
  | _ => standard_key key

/-- src/command.rs `parse_key`: first the literal table, then the fallback arm. -/
def parse_key (key : String) : InputSeq :=
  match List.lookup key keyTable with
  | some seq => seq
  | none => fallback_key key

/-- UTF-8 encoding of a character (Rust `str::as_bytes` views a `String` as its
UTF-8 bytes). -/
def utf8Bytes (c : Char) : List Nat :=
  let n := c.toNat
  if n < 0x80 then [n]
  else if n < 0x800 then [0xC0 + n / 0x40, 0x80 + n % 0x40]
  else if n < 0x10000 then [0xE0 + n / 0x1000, 0x80 + n / 0x40 % 0x40, 0x80 + n % 0x40]
  else [0xF0 + n / 0x40000, 0x80 + n / 0x1000 % 0x40, 0x80 + n / 0x40 % 0x40, 0x80 + n % 0x40]

/-- The UTF-8 bytes of a string (Rust `String::as_bytes`). -/
def strBytes (s : String) : List Nat := (s.data.map utf8Bytes).flatten

/-- src/command.rs `seq_as_bytes`: pick the standard bytes, or for a cursor key
the normal bytes when not in application mode and the application bytes when in
application mode. -/
def seq_as_bytes (seq : InputSeq) (app_mode : Bool) : List Nat :=
  match seq, app_mode with
  | .standard s, _ => strBytes s
  | .cursor s1 _, false => strBytes s1
  | .cursor _ s2, true => strBytes s2

/-- src/command.rs `seqs_to_bytes`: concatenate the bytes of each sequence. -/
def seqs_to_bytes (seqs : List InputSeq) (app_mode : Bool) : List Nat :=
  (seqs.map (fun s => seq_as_bytes s app_mode)).flatten

/-! ## The key table of spec section 4.4 (claim C2)

The table below is written from the SPEC, section 4.4 (name, "normal" byte
column, "app" byte column); for non-cursor names the two columns coincide.
It is compared against the encoder translated from the source. -/

def sec44Table : List (String × String × String) := [
  ("C-@", "\x00", "\x00"),
  ("C-Space", "\x00", "\x00"),
  ("^@", "\x00", "\x00"),
  ("C-[", "\x1b", "\x1b"),
  ("Escape", "\x1b", "\x1b"),
  ("^[", "\x1b", "\x1b"),
  ("C-\\", "\x1c", "\x1c"),
  ("^\\", "\x1c", "\x1c"),
  ("C-]", "\x1d", "\x1d"),
  ("^]", "\x1d", "\x1d"),
  ("C-^", "\x1e", "\x1e"),
  ("C-/", "\x1e", "\x1e"),
  ("C--", "\x1f", "\x1f"),
  ("C-_", "\x1f", "\x1f"),
  ("Tab", "\x09", "\x09"),
  ("Enter", "\x0d", "\x0d"),
  ("Space", " ", " "),
  ("Left", "\x1b[D", "\x1bOD"),
  ("Right", "\x1b[C", "\x1bOC"),
  ("Up", "\x1b[A", "\x1bOA"),
  ("Down", "\x1b[B", "\x1bOB"),
  ("Home", "\x1b[H", "\x1bOH"),
  ("End", "\x1b[F", "\x1bOF"),
  ("F1", "\x1bOP", "\x1bOP"),
  ("F2", "\x1bOQ", "\x1bOQ"),
  ("F3", "\x1bOR", "\x1bOR"),
  ("F4", "\x1bOS", "\x1bOS"),
  ("F5", "\x1b[15~", "\x1b[15~"),
  ("F6", "\x1b[17~", "\x1b[17~"),
  ("F7", "\x1b[18~", "\x1b[18~"),
  ("F8", "\x1b[19~", "\x1b[19~"),
  ("F9", "\x1b[20~", "\x1b[20~"),
  ("F10", "\x1b[21~", "\x1b[21~"),
  ("F11", "\x1b[23~", "\x1b[23~"),
  ("F12", "\x1b[24~", "\x1b[24~"),
  ("C-Left", "\x1b[1;5D", "\x1b[1;5D"),
  ("S-Left", "\x1b[1;2D", "\x1b[1;2D"),
  ("A-Left", "\x1b[1;3D", "\x1b[1;3D"),
  ("C-S-Left", "\x1b[1;6D", "\x1b[1;6D"),
  ("C-A-Left", "\x1b[1;7D", "\x1b[1;7D"),
  ("S-A-Left", "\x1b[1;4D", "\x1b[1;4D"),
  ("C-A-S-Left", "\x1b[1;8D", "\x1b[1;8D"),
  ("C-Right", "\x1b[1;5C", "\x1b[1;5C"),
  ("S-Right", "\x1b[1;2C", "\x1b[1;2C"),
  ("A-Right", "\x1b[1;3C", "\x1b[1;3C"),
  ("C-S-Right", "\x1b[1;6C", "\x1b[1;6C"),
  ("C-A-Right", "\x1b[1;7C", "\x1b[1;7C"),
  ("S-A-Right", "\x1b[1;4C", "\x1b[1;4C"),
  ("C-A-S-Right", "\x1b[1;8C", "\x1b[1;8C"),
  ("C-Up", "\x1b[1;5A", "\x1b[1;5A"),
  ("S-Up", "\x1b[1;2A", "\x1b[1;2A"),
  ("A-Up", "\x1b[1;3A", "\x1b[1;3A"),
  ("C-S-Up", "\x1b[1;6A", "\x1b[1;6A"),
  ("C-A-Up", "\x1b[1;7A", "\x1b[1;7A"),
  ("S-A-Up", "\x1b[1;4A", "\x1b[1;4A"),
  ("C-A-S-Up", "\x1b[1;8A", "\x1b[1;8A"),
  ("C-Down", "\x1b[1;5B", "\x1b[1;5B"),
  ("S-Down", "\x1b[1;2B", "\x1b[1;2B"),
  ("A-Down", "\x1b[1;3B", "\x1b[1;3B"),
  ("C-S-Down", "\x1b[1;6B", "\x1b[1;6B"),
  ("C-A-Down", "\x1b[1;7B", "\x1b[1;7B"),
  ("S-A-Down", "\x1b[1;4B", "\x1b[1;4B"),
  ("C-A-S-Down", "\x1b[1;8B", "\x1b[1;8B"),
  ("C-F1", "\x1b[1;5P", "\x1b[1;5P"),
  ("C-F2", "\x1b[1;5Q", "\x1b[1;5Q"),
  ("C-F3", "\x1b[1;5R", "\x1b[1;5R"),
  ("C-F4", "\x1b[1;5S", "\x1b[1;5S"),
  ("C-F5", "\x1b[15;5~", "\x1b[15;5~"),
  ("C-F6", "\x1b[17;5~", "\x1b[17;5~"),
  ("C-F7", "\x1b[18;5~", "\x1b[18;5~"),
  ("C-F8", "\x1b[19;5~", "\x1b[19;5~"),
  ("C-F9", "\x1b[20;5~", "\x1b[20;5~"),
  ("C-F10", "\x1b[21;5~", "\x1b[21;5~"),
  ("C-F11", "\x1b[23;5~", "\x1b[23;5~"),
  ("C-F12", "\x1b[24;5~", "\x1b[24;5~"),
  ("S-F1", "\x1b[1;2P", "\x1b[1;2P"),
  ("S-F2", "\x1b[1;2Q", "\x1b[1;2Q"),
  ("S-F3", "\x1b[1;2R", "\x1b[1;2R"),
  ("S-F4", "\x1b[1;2S", "\x1b[1;2S"),
  ("S-F5", "\x1b[15;2~", "\x1b[15;2~"),
  ("S-F6", "\x1b[17;2~", "\x1b[17;2~"),
  ("S-F7", "\x1b[18;2~", "\x1b[18;2~"),
  ("S-F8", "\x1b[19;2~", "\x1b[19;2~"),
  ("S-F9", "\x1b[20;2~", "\x1b[20;2~"),
  ("S-F10", "\x1b[21;2~", "\x1b[21;2~"),
  ("S-F11", "\x1b[23;2~", "\x1b[23;2~"),
  ("S-F12", "\x1b[24;2~", "\x1b[24;2~"),
  ("A-F1", "\x1b[1;3P", "\x1b[1;3P"),
  ("A-F2", "\x1b[1;3Q", "\x1b[1;3Q"),
  ("A-F3", "\x1b[1;3R", "\x1b[1;3R"),
  ("A-F4", "\x1b[1;3S", "\x1b[1;3S"),
  ("A-F5", "\x1b[15;3~", "\x1b[15;3~"),
  ("A-F6", "\x1b[17;3~", "\x1b[17;3~"),
  ("A-F7", "\x1b[18;3~", "\x1b[18;3~"),
  ("A-F8", "\x1b[19;3~", "\x1b[19;3~"),
  ("A-F9", "\x1b[20;3~", "\x1b[20;3~"),
  ("A-F10", "\x1b[21;3~", "\x1b[21;3~"),
  ("A-F11", "\x1b[23;3~", "\x1b[23;3~"),
  ("A-F12", "\x1b[24;3~", "\x1b[24;3~"),
  ("C-Home", "\x1b[1;5H", "\x1b[1;5H"),
  ("C-End", "\x1b[1;5F", "\x1b[1;5F"),
  ("S-Home", "\x1b[1;2H", "\x1b[1;2H"),
  ("S-End", "\x1b[1;2F", "\x1b[1;2F"),
  ("A-Home", "\x1b[1;3H", "\x1b[1;3H"),
  ("A-End", "\x1b[1;3F", "\x1b[1;3F"),
  ("PageUp", "\x1b[5~", "\x1b[5~"),
  ("PageDown", "\x1b[6~", "\x1b[6~"),
  ("C-PageUp", "\x1b[5;5~", "\x1b[5;5~"),
  ("C-PageDown", "\x1b[6;5~", "\x1b[6;5~"),
  ("S-PageUp", "\x1b[5;2~", "\x1b[5;2~"),
  ("S-PageDown", "\x1b[6;2~", "\x1b[6;2~"),
  ("A-PageUp", "\x1b[5;3~", "\x1b[5;3~"),
  ("A-PageDown", "\x1b[6;3~", "\x1b[6;3~")]

set_option maxRecDepth 100000 in
/-- C2: for every named key in the section 4.4 table, serializing the parsed
key with app_mode=false yields exactly the "normal" byte column of the table, and
with app_mode=true the cursor-key names yield the "app" column while every
non-cursor name yields the same bytes in either mode. -/
theorem key_encoder_matches_sec44_table :
    ∀ e ∈ sec44Table,
      seqs_to_bytes [parse_key e.1] false = strBytes e.2.1 ∧
      seqs_to_bytes [parse_key e.1] true = strBytes e.2.2 := by
  decide

/-- Witness for C2 at the concrete table entry for F5. -/
theorem key_encoder_matches_sec44_table_witness :
    ("F5", "\x1b[15~", "\x1b[15~") ∈ sec44Table ∧
      seqs_to_bytes [parse_key "F5"] false = strBytes "\x1b[15~" ∧
      seqs_to_bytes [parse_key "F5"] true = strBytes "\x1b[15~" :=
  ⟨by decide, key_encoder_matches_sec44_table ("F5", "\x1b[15~", "\x1b[15~") (by decide)⟩

/-! ## Modifier permutations (claim C3) -/

/-- A modifier prefix: Control, Shift or Alt. -/
inductive Mod where
  | c
  | s
  | a
deriving Repr, DecidableEq

/-- The textual form of a modifier as used in key names. -/
def Mod.str : Mod → String
  | .c => "C-"
  | .s => "S-"
  | .a => "A-"

/-- A key name built from a sequence of modifier prefixes and a base key. -/
def keyName (ms : List Mod) (base : String) : String :=
  ms.foldr (fun m acc => m.str ++ acc) base

/-- All non-empty duplicate-free modifier sequences over {C-, S-, A-}. -/
def modSeqs : List (List Mod) :=
  [[.c], [.s], [.a],
   [.c, .s], [.s, .c], [.c, .a], [.a, .c], [.s, .a], [.a, .s],
   [.c, .s, .a], [.c, .a, .s], [.s, .c, .a], [.s, .a, .c], [.a, .c, .s], [.a, .s, .c]]

/-- C3 counterexample: `F1` is a base key of the section 4.4 table, and
`C-S-F1` and `S-C-F1` are built from it with the same modifier set
{C-, S-} in two permutations, yet the encoder recognizes neither (both
pass through literally) and they encode to different byte sequences. -/
theorem modifier_permutations_counterexample :
    parse_key "C-S-F1" = standard_key "C-S-F1" ∧
      parse_key "S-C-F1" = standard_key "S-C-F1" ∧
      seqs_to_bytes [parse_key "C-S-F1"] false ≠ seqs_to_bytes [parse_key "S-C-F1"] false := by
  decide

set_option maxRecDepth 100000 in
/-- C3 (amended): for the arrow base keys Left, Right, Up, Down, every
permutation of a non-empty set of modifier prefixes drawn from
{C-, S-, A-} is accepted (does not pass through literally), and all
permutations of the same modifier set encode to the same byte sequence. -/
theorem arrow_modifier_permutations_agree :
    ∀ base ∈ ["Left", "Right", "Up", "Down"], ∀ p ∈ modSeqs, ∀ q ∈ modSeqs,
      p.Perm q →
        parse_key (keyName p base) ≠ standard_key (keyName p base) ∧
        parse_key (keyName p base) = parse_key (keyName q base) := by
  decide

/-- Witness for C3 (amended) at base Left with permutations C-A-S and S-A-C. -/
theorem arrow_modifier_permutations_agree_witness :
    parse_key (keyName [.c, .a, .s] "Left") ≠ standard_key (keyName [.c, .a, .s] "Left") ∧
      parse_key (keyName [.c, .a, .s] "Left") = parse_key (keyName [.s, .a, .c] "Left") :=
  arrow_modifier_permutations_agree "Left" (by decide) [.c, .a, .s] (by decide)
    [.s, .a, .c] (by decide) (by decide)

/-! ## The stdio command protocol (claims C1, C9) -/

/-- JSON values (serde_json `Value`), as far as the command protocol needs
them. -/
inductive Json where
  | null
  | bool (b : Bool)
  | num (n : Int)
  | str (s : String)
  | arr (xs : List Json)
  | obj (fields : List (String × Json))

/-- Indexing a JSON value with a string key (serde_json `value["type"]`):
the value of the field on an object that has the key, `null` otherwise. -/
def jsonIndex (v : Json) (key : String) : Json :=
  match v with
  | .obj fields =>
    match List.lookup key fields with
    | some x => x
    | none => .null
  | _ => .null

/-- serde_json `Value::as_str`. -/
def Json.as_str : Json → Option String
  | .str s => some s
  | _ => none

/-- src/command.rs `Command` (same in src/api.rs): the typed stdio commands.
The variants are `Input`, `GetView` and `Resize` — there is no snapshot
variant. -/
inductive Command where
  | input (seqs : List InputSeq)
  | getView
  | resize (cols rows : Nat)
deriving Repr, DecidableEq

/-- serde deserialization of `InputArgs \x7b payload: String \x7d` from a JSON
value (external serde behavior, modelled as required-field extraction with
unknown fields ignored). -/
def inputArgs (v : Json) : Except String String :=
  match (jsonIndex v "payload").as_str with
  | some s => .ok s
  | none => .error "missing or invalid field: payload"

/-- The elements of a JSON array as strings, when every element is a string. -/
def strList : List Json → Option (List String)
  | [] => some []
  | .str s :: rest => (strList rest).map (fun l => s :: l)
  | _ => none

/-- serde deserialization of `SendKeysArgs \x7b keys: Vec<String> \x7d`
(external serde behavior, modelled as required-field extraction). -/
def sendKeysArgs (v : Json) : Except String (List String) :=
  match jsonIndex v "keys" with
  | .arr xs =>
    match strList xs with
    | some keys => .ok keys
    | none => .error "invalid field: keys"
  | _ => .error "missing or invalid field: keys"

/-- serde deserialization of `ResizeArgs \x7b cols: usize, rows: usize \x7d`
(external serde behavior, modelled as required-field extraction; usize
requires a non-negative number). -/
def resizeArgs (v : Json) : Except String (Nat × Nat) :=
  match jsonIndex v "cols", jsonIndex v "rows" with
  | .num c, .num r =>
    if 0 ≤ c ∧ 0 ≤ r then .ok (c.toNat, r.toNat) else .error "invalid field: cols/rows"
  | _, _ => .error "missing or invalid field: cols/rows"

/-- Rust `format!("{other:?}")` for the `Option<&str>` held in `other`
(no special characters need escaping in the command type names used here). -/
def debugOptStr : Option String → String
  | none => "None"
  | some s => "Some(\"" ++ s ++ "\")"

/-- src/command.rs `build_command` (same in src/api.rs): dispatch on the
string field `type`; a Rust match over disjoint string literals is written
as an if-chain on the same scrutinee. -/
def build_command (value : Json) : Except String Command :=
  if (jsonIndex value "type").as_str = some "input" then
    (inputArgs value).map (fun payload => .input [standard_key payload])
  else if (jsonIndex value "type").as_str = some "sendKeys" then
    (sendKeysArgs value).map (fun keys => .input (keys.map parse_key))
  else if (jsonIndex value "type").as_str = some "resize" then
    (resizeArgs value).map (fun p => .resize p.1 p.2)
  else if (jsonIndex value "type").as_str = some "getView" then
    .ok .getView
  else
    .error ("invalid command type: " ++ debugOptStr ((jsonIndex value "type").as_str))

/-- C1 counterexample: a stdio control line whose JSON object has string field
`type` equal to "snapshot" (and no other field) is rejected by
`build_command` as an invalid command type, not accepted. -/
theorem snapshot_type_rejected :
    build_command (.obj [("type", .str "snapshot")]) =
      .error "invalid command type: Some(\"snapshot\")" := by
  rfl

/-- C1 (amended): every JSON object whose `type` field is the string
"snapshot" is rejected with "invalid command type"; the command that requests
the terminal view is `type` "getView" (no other fields required), which
parses successfully to `Command.getView`. -/
theorem snapshot_rejected_getView_parses :
    (∀ v : Json, (jsonIndex v "type").as_str = some "snapshot" →
        build_command v = .error "invalid command type: Some(\"snapshot\")") ∧
      build_command (.obj [("type", .str "getView")]) = .ok .getView := by
  constructor
  · intro v h
    unfold build_command
    rw [h]
    rfl
  · rfl

/-- Witness for C1 (amended) at the concrete snapshot request object. -/
theorem snapshot_rejected_getView_parses_witness :
    build_command (.obj [("type", .str "snapshot")]) =
      .error "invalid command type: Some(\"snapshot\")" :=
  snapshot_rejected_getView_parses.1 (.obj [("type", .str "snapshot")]) rfl

/-- Whether an input sequence is the `Standard` variant. -/
def isStandard : InputSeq → Bool
  | .standard _ => true
  | .cursor _ _ => false

/-- C9: byte serialization of a list of `Standard`-only input sequences does
not depend on the cursor-key application mode; in particular an `input`
command payload becomes a single `Standard` sequence, whose bytes are the
same in either mode. -/
theorem standard_seqs_mode_independent :
    (∀ seqs : List InputSeq, (∀ q ∈ seqs, isStandard q = true) →
        ∀ m m' : Bool, seqs_to_bytes seqs m = seqs_to_bytes seqs m') ∧
      (∀ v payload, (jsonIndex v "type").as_str = some "input" →
        inputArgs v = .ok payload →
          build_command v = .ok (.input [standard_key payload]) ∧
            ∀ m m' : Bool,
              seqs_to_bytes [standard_key payload] m =
                seqs_to_bytes [standard_key payload] m') := by
  constructor
  · intro seqs h m m'
    induction seqs with
    | nil => rfl
    | cons q rest ih =>
      have hq := h q (List.mem_cons_self q rest)
      have hrest := fun x hx => h x (List.mem_cons_of_mem q hx)
      cases q with
      | standard s =>
        simp only [seqs_to_bytes, List.map_cons, List.flatten_cons] at ih ⊢
        rw [ih hrest]
        simp [seq_as_bytes]
      | cursor s1 s2 => simp [isStandard] at hq
  · intro v payload htype hargs
    constructor
    · unfold build_command
      rw [htype, hargs]
      rfl
    · intro m m'
      cases m <;> cases m' <;> rfl

/-- Witness for C9 at a concrete sequence list and a concrete input command. -/
theorem standard_seqs_mode_independent_witness :
    seqs_to_bytes [standard_key "hi"] true = seqs_to_bytes [standard_key "hi"] false ∧
      build_command (.obj [("type", .str "input"), ("payload", .str "hi")]) =
        .ok (.input [standard_key "hi"]) :=
  ⟨standard_seqs_mode_independent.1 [standard_key "hi"] (by decide) true false,
   (standard_seqs_mode_independent.2 (.obj [("type", .str "input"), ("payload", .str "hi")])
     "hi" rfl rfl).1⟩

/-! ## The non-blocking I/O shim (claim C5) -/

/-- The error kinds the shim distinguishes (std::io::ErrorKind, collapsed to
the distinction src/nbio.rs makes). -/
inductive ErrorKind where
  | wouldBlock
  | other
deriving Repr, DecidableEq

/-- Model of std::io::Error: either a raw OS error, whose kind derives from
the code (on Linux EAGAIN = EWOULDBLOCK = 11 decodes to WouldBlock; every
other code, including EIO = 5, decodes to a non-WouldBlock kind), or a
custom error carrying a kind and no raw OS code. -/
inductive IoError where
  | os (code : Nat)
  | custom (kind : ErrorKind)
deriving Repr, DecidableEq

/-- std::io::Error `kind()`. -/
def IoError.kind : IoError → ErrorKind
  | .os code => if code = 11 then .wouldBlock else .other
  | .custom k => k

/-- std::io::Error `raw_os_error()`. -/
def IoError.raw_os_error : IoError → Option Nat
  | .os code => some code
  | .custom _ => none

/-- src/nbio.rs `read`, as a function of the outcome of the underlying
`source.read(buf)` call: `n` bytes read, or an I/O error. -/
def nbioRead (result : Except IoError Nat) : Except IoError (Option Nat) :=
  match result with
  | .ok n => .ok (some n)
  | .error e =>
    if e.kind = .wouldBlock then .ok none
    else if e.raw_os_error = some 5 then .ok (some 0)
    else .error e

/-- src/nbio.rs `write`, as a function of the outcome of the underlying
`sink.write(buf)` call; the mapping is the same as for `read`. -/
def nbioWrite (result : Except IoError Nat) : Except IoError (Option Nat) :=
  match result with
  | .ok n => .ok (some n)
  | .error e =>
    if e.kind = .wouldBlock then .ok none
    else if e.raw_os_error = some 5 then .ok (some 0)
    else .error e

lemma nbioWrite_eq_nbioRead (r : Except IoError Nat) : nbioWrite r = nbioRead r := rfl

lemma nbioRead_cases (r : Except IoError Nat) :
    (nbioRead r = .ok none ↔ ∃ e, r = .error e ∧ e.kind = .wouldBlock) ∧
      (∀ e, r = .error e → e.raw_os_error = some 5 → nbioRead r = .ok (some 0)) ∧
      (∀ n, r = .ok n → nbioRead r = .ok (some n)) ∧
      (∀ e, r = .error e → e.kind ≠ .wouldBlock → e.raw_os_error ≠ some 5 →
        nbioRead r = .error e) := by
  cases r with
  | ok n => simp [nbioRead]
  | error e =>
    refine ⟨?_, ?_, ?_, ?_⟩
    · by_cases h : e.kind = .wouldBlock
      · simp [nbioRead, h]
      · by_cases h5 : e.raw_os_error = some 5 <;> simp [nbioRead, h, h5]
    · intro e' he h5
      cases he
      have hk : e.kind ≠ .wouldBlock := by
        cases e with
        | os code =>
          have : code = 5 := by
            simpa [IoError.raw_os_error] using h5
          subst this
          simp [IoError.kind]
        | custom k => simp [IoError.raw_os_error] at h5
      simp [nbioRead, hk, h5]
    · intro n h
      cases h
    · intro e' he hk h5
      cases he
      simp [nbioRead, hk, h5]

/-- C5: read and write of the shim return progress `none` exactly when the
underlying operation fails with WouldBlock, map a failure whose raw OS error
code is 5 (EIO) to `some 0` (EOF), return `some n` when the underlying
operation transfers `n` bytes (including `n = 0` at EOF), and propagate every
other error unchanged. -/
theorem nbio_progress_mapping :
    ∀ r : Except IoError Nat,
      ((nbioRead r = .ok none ↔ ∃ e, r = .error e ∧ e.kind = .wouldBlock) ∧
        (∀ e, r = .error e → e.raw_os_error = some 5 → nbioRead r = .ok (some 0)) ∧
        (∀ n, r = .ok n → nbioRead r = .ok (some n)) ∧
        (∀ e, r = .error e → e.kind ≠ .wouldBlock → e.raw_os_error ≠ some 5 →
          nbioRead r = .error e)) ∧
      ((nbioWrite r = .ok none ↔ ∃ e, r = .error e ∧ e.kind = .wouldBlock) ∧
        (∀ e, r = .error e → e.raw_os_error = some 5 → nbioWrite r = .ok (some 0)) ∧
        (∀ n, r = .ok n → nbioWrite r = .ok (some n)) ∧
        (∀ e, r = .error e → e.kind ≠ .wouldBlock → e.raw_os_error ≠ some 5 →
          nbioWrite r = .error e)) := by
  intro r
  refine ⟨nbioRead_cases r, ?_⟩
  rw [nbioWrite_eq_nbioRead]
  exact nbioRead_cases r

/-- Witness for C5: would-block gives `none`, EIO gives EOF, a transfer of
7 bytes gives `some 7`, and the EPERM error (code 1) passes through. -/
theorem nbio_progress_mapping_witness :
    nbioRead (.error (.os 11)) = .ok none ∧
      nbioRead (.error (.os 5)) = .ok (some 0) ∧
      nbioWrite (.ok 7) = .ok (some 7) ∧
      nbioWrite (.error (.os 1)) = .error (.os 1) :=
  ⟨((nbio_progress_mapping (.error (.os 11))).1.1).mpr ⟨.os 11, rfl, by decide⟩,
   (nbio_progress_mapping (.error (.os 5))).1.2.1 (.os 5) rfl rfl,
   (nbio_progress_mapping (.ok 7)).2.2.2.1 7 rfl,
   (nbio_progress_mapping (.error (.os 1))).2.2.2.2 (.os 1) rfl (by decide) (by decide)⟩

/-! ## The VT facade (claim C4) -/

/-- The call a wrapper makes into the external VT engine: either feeding a
byte string through the escape-sequence parser, or invoking the native resize API of the
engine. -/
inductive EngineCall where
  | feed_str (s : String)
  | resize (cols rows : Nat)
deriving Repr, DecidableEq

/-- src/vt.rs `resize_seq`: `format!("\x1b[8;{};{}t", rows, cols)`. -/
def resize_seq (cols rows : Nat) : String :=
  "\x1b[8;" ++ toString rows ++ ";" ++ toString cols ++ "t"

/-- src/vt.rs `Vt::resize`: `self.vt.feed_str(&resize_seq(cols, rows))` — the
engine call performed by the facade resize. -/
def Vt.resize_call (cols rows : Nat) : EngineCall := .feed_str (resize_seq cols rows)

/-- src/session.rs `resize_vt`: `vt.resize(cols, rows)` — the engine call the
engine call performed by the resize helper of the Session. -/
def resize_vt_call (cols rows : Nat) : EngineCall := .resize cols rows

/-- C4 counterexample: at cols = 100, rows = 30 the facade resize feeds the
engine the escape sequence `ESC [8;30;100t`; it is not a native resize call. -/
theorem facade_resize_counterexample :
    Vt.resize_call 100 30 = .feed_str "\x1b[8;30;100t" ∧
      Vt.resize_call 100 30 ≠ EngineCall.resize 100 30 := by
  constructor
  · rfl
  · intro h
    cases h

/-- C4 (amended): the VT facade resize (src/vt.rs) resizes by feeding the
engine the `CSI 8;rows;cols t` escape sequence and never issues a native
resize call; the resize helper of the Session (src/session.rs `resize_vt`) is the
one that uses the native resize API of the engine. -/
theorem facade_resize_feeds_escape :
    ∀ cols rows : Nat,
      Vt.resize_call cols rows = .feed_str (resize_seq cols rows) ∧
        (∀ c r : Nat, Vt.resize_call cols rows ≠ EngineCall.resize c r) ∧
        resize_vt_call cols rows = .resize cols rows :=
  fun _ _ => ⟨rfl, fun _ _ h => EngineCall.noConfusion h, rfl⟩

/-! ## The Session (claims C6, C7, C10) -/

/-- The interface of the external VT engine (the avt library), as the spec
describes it: feed, native resize, size, dump, the text of each visible line,
and the cursor-key application mode.  The engine itself is out of scope; the
Session theorems hold for every engine. -/
structure VtEngine (V : Type) where
  feed_str : V → String → V
  resize : V → Nat → Nat → V
  size : V → Nat × Nat
  dump : V → String
  view : V → List String
  cursor_key_app_mode : V → Bool

/-- src/session.rs `Event`.  Times are seconds elapsed since session start;
the source stores them as f64 computed by the monotone
`Duration::as_secs_f64`, modelled here as values of a discrete monotone
clock.  The `snapshot` variant carries no time field. -/
inductive Event where
  | init (time : Nat) (cols rows : Nat) (pid : Int) (seq text : String)
  | output (time : Nat) (data : String)
  | resize (time : Nat) (cols rows : Nat)
  | snapshot (cols rows : Nat) (seq text : String)
deriving Repr, DecidableEq

/-- src/session.rs `Session`.  `subscribers` models the queues of the attached
broadcast receivers (the channel state behind `broadcast_tx`); `start_time`
is implicit in that every clock sample is given as time elapsed since start. -/
structure Session (V : Type) where
  vt : V
  subscribers : List (List Event)
  stream_time : Nat
  last_event_time : Nat
  pid : Int

/-- tokio broadcast `send`: append the event to the queue of every receiver; the
result is the receiver count, or an error when there is no receiver. -/
def broadcastSend (subs : List (List Event)) (e : Event) :
    List (List Event) × Except Unit Nat :=
  (subs.map (fun q => q ++ [e]),
   if subs.isEmpty then .error () else .ok subs.length)

/-- src/session.rs `Session::new`: fresh VT, no receiver yet, stream time 0,
both clock anchors at now (sample 0). -/
def Session.new {V : Type} (vt : V) (pid : Int) : Session V :=
  { vt := vt, subscribers := [], stream_time := 0, last_event_time := 0, pid := pid }

/-- src/session.rs `Session::output`: feed the VT, sample the clock (`time`),
broadcast `Output(time, data)` ignoring the send result, set `stream_time` to
the sample and `last_event_time` to a fresh sample `now`. -/
def Session.output {V : Type} (E : VtEngine V) (time now : Nat) (data : String)
    (s : Session V) : Session V :=
  { s with
    vt := E.feed_str s.vt data
    subscribers := (broadcastSend s.subscribers (.output time data)).1
    stream_time := time
    last_event_time := now }

/-- src/session.rs `Session::resize`: resize the VT via `resize_vt` (the
native engine resize), broadcast `Resize(time, cols, rows)` ignoring the send
result, and do the same clock bookkeeping as `output`. -/
def Session.resize {V : Type} (E : VtEngine V) (time now cols rows : Nat)
    (s : Session V) : Session V :=
  { s with
    vt := E.resize s.vt cols rows
    subscribers := (broadcastSend s.subscribers (.resize time cols rows)).1
    stream_time := time
    last_event_time := now }

/-- src/session.rs `Session::text_view`: the newline-joined text of the visible
lines of the VT. -/
def Session.text_view {V : Type} (E : VtEngine V) (s : Session V) : String :=
  String.intercalate "\n" (E.view s.vt)

/-- The `Snapshot` event src/session.rs `Session::snapshot` broadcasts:
current size, dump, and text view; no time field. -/
def Session.snapshot_event {V : Type} (E : VtEngine V) (s : Session V) : Event :=
  .snapshot (E.size s.vt).1 (E.size s.vt).2 (E.dump s.vt) (s.text_view E)

/-- src/session.rs `Session::snapshot`: takes `&self`, mutates nothing, and
broadcasts the snapshot event ignoring the send result. -/
def Session.snapshot {V : Type} (E : VtEngine V) (s : Session V) : Session V :=
  { s with subscribers := (broadcastSend s.subscribers (s.snapshot_event E)).1 }

/-- One call of the event hub into the Session: `output`, `resize` or
`snapshot`, with the clock samples the call observes. -/
inductive SessionStep where
  | output (time now : Nat) (data : String)
  | resize (time now cols rows : Nat)
  | snapshot
deriving Repr, DecidableEq

/-- The `time` sample a step observes (`snapshot` samples no clock). -/
def SessionStep.time? : SessionStep → Option Nat
  | .output t _ _ => some t
  | .resize t _ _ _ => some t
  | .snapshot => none

/-- Apply one step to the Session. -/
def SessionStep.apply {V : Type} (E : VtEngine V) : SessionStep → Session V → Session V
  | .output t n d, s => Session.output E t n d s
  | .resize t n c r, s => Session.resize E t n c r s
  | .snapshot, s => Session.snapshot E s

/-- Run a sequence of Session calls. -/
def runSteps {V : Type} (E : VtEngine V) (steps : List SessionStep) (s : Session V) :
    Session V :=
  steps.foldl (fun s st => SessionStep.apply E st s) s

/-- The event one step broadcasts. -/
def stepEvent {V : Type} (E : VtEngine V) (st : SessionStep) (s : Session V) : Event :=
  match st with
  | .output t _ d => .output t d
  | .resize t _ c r => .resize t c r
  | .snapshot => s.snapshot_event E

/-- The events a sequence of Session calls broadcasts, in order. -/
def runLog {V : Type} (E : VtEngine V) : List SessionStep → Session V → List Event
  | [], _ => []
  | st :: rest, s => stepEvent E st s :: runLog E rest (SessionStep.apply E st s)

/-- The states the Session passes through, starting state included. -/
def stateTrace {V : Type} (E : VtEngine V) : List SessionStep → Session V → List (Session V)
  | [], s => [s]
  | st :: rest, s => s :: stateTrace E rest (SessionStep.apply E st s)

/-- The time field of an `Output` or `Resize` event. -/
def eventTime? : Event → Option Nat
  | .output t _ => some t
  | .resize t _ _ => some t
  | _ => none

lemma apply_stream_time {V : Type} (E : VtEngine V) (st : SessionStep) (s : Session V) :
    (SessionStep.apply E st s).stream_time =
      (match st.time? with
       | some t => t
       | none => s.stream_time) := by
  cases st <;> rfl

lemma apply_subscribers {V : Type} (E : VtEngine V) (st : SessionStep) (s : Session V) :
    (SessionStep.apply E st s).subscribers =
      s.subscribers.map (fun q => q ++ [stepEvent E st s]) := by
  cases st <;> rfl

lemma stepEvent_time {V : Type} (E : VtEngine V) (st : SessionStep) (s : Session V) :
    eventTime? (stepEvent E st s) = st.time? := by
  cases st <;> rfl

lemma runLog_times {V : Type} (E : VtEngine V) (steps : List SessionStep) (s : Session V) :
    (runLog E steps s).filterMap eventTime? = steps.filterMap SessionStep.time? := by
  induction steps generalizing s with
  | nil => rfl
  | cons st rest ih =>
    simp only [runLog, List.filterMap_cons, stepEvent_time, ih]

lemma stateTrace_map_head {V : Type} (E : VtEngine V) (steps : List SessionStep)
    (s : Session V) (f : Session V → Nat) :
    ((stateTrace E steps s).map f).head? = some (f s) := by
  cases steps <;> rfl

lemma streamTrace_chain {V : Type} (E : VtEngine V) (steps : List SessionStep)
    (s : Session V)
    (h : List.Chain' (· ≤ ·) (s.stream_time :: steps.filterMap SessionStep.time?)) :
    List.Chain' (· ≤ ·) ((stateTrace E steps s).map (fun x => x.stream_time)) := by
  induction steps generalizing s with
  | nil => simp [stateTrace]
  | cons st rest ih =>
    have hle : s.stream_time ≤ (SessionStep.apply E st s).stream_time ∧
        List.Chain' (· ≤ ·)
          ((SessionStep.apply E st s).stream_time :: rest.filterMap SessionStep.time?) := by
      rw [apply_stream_time]
      cases st with
      | output t n d =>
        simp only [SessionStep.time?, List.filterMap_cons] at h
        exact ⟨(List.chain'_cons.mp h).1, (List.chain'_cons.mp h).2⟩
      | resize t n c r =>
        simp only [SessionStep.time?, List.filterMap_cons] at h
        exact ⟨(List.chain'_cons.mp h).1, (List.chain'_cons.mp h).2⟩
      | snapshot =>
        simp only [SessionStep.time?, List.filterMap_cons] at h
        exact ⟨le_refl _, h⟩
    show List.Chain' (· ≤ ·)
      (s.stream_time :: (stateTrace E rest (SessionStep.apply E st s)).map
        (fun x => x.stream_time))
    rw [List.chain'_cons']
    refine ⟨?_, ih _ hle.2⟩
    intro b hb
    rw [stateTrace_map_head] at hb
    cases hb
    exact hle.1

lemma runSteps_subscribers {V : Type} (E : VtEngine V) (steps : List SessionStep)
    (s : Session V) :
    (runSteps E steps s).subscribers =
      s.subscribers.map (fun q => q ++ runLog E steps s) := by
  induction steps generalizing s with
  | nil => simp [runSteps, runLog]
  | cons st rest ih =>
    show (runSteps E rest (SessionStep.apply E st s)).subscribers = _
    rw [ih, apply_subscribers, List.map_map]
    simp [runLog, Function.comp, List.append_assoc]

/-- C6: for every finite sequence of `output`, `resize` and `snapshot` calls
whose clock samples are non-decreasing (and start no earlier than the current
`stream_time`), the `stream_time` field never decreases across the sequence,
and the time fields of the successive `Output`/`Resize` events each
subscriber receives are non-decreasing (the queue of each subscriber grows by
exactly the broadcast log, in order). -/
theorem session_times_monotone {V : Type} (E : VtEngine V) (s : Session V)
    (steps : List SessionStep)
    (h : List.Chain' (· ≤ ·) (s.stream_time :: steps.filterMap SessionStep.time?)) :
    List.Chain' (· ≤ ·) ((stateTrace E steps s).map (fun x => x.stream_time)) ∧
      List.Chain' (· ≤ ·) ((runLog E steps s).filterMap eventTime?) ∧
      (runSteps E steps s).subscribers =
        s.subscribers.map (fun q => q ++ runLog E steps s) := by
  refine ⟨streamTrace_chain E steps s h, ?_, runSteps_subscribers E steps s⟩
  rw [runLog_times]
  exact h.tail

/-- A trivial concrete VT engine, used to instantiate witnesses. -/
def unitEngine : VtEngine Unit :=
  { feed_str := fun v _ => v
    resize := fun v _ _ => v
    size := fun _ => (80, 24)
    dump := fun _ => ""
    view := fun _ => []
    cursor_key_app_mode := fun _ => false }

/-- A concrete run used to instantiate witnesses: one subscriber, an output at
time 1, a snapshot, and a resize at time 2. -/
def witnessSteps : List SessionStep :=
  [.output 1 1 "a", .snapshot, .resize 2 2 80 25]

def witnessSession : Session Unit :=
  { Session.new () 42 with subscribers := [[]] }

/-- Witness for C6 at the concrete run. -/
theorem session_times_monotone_witness :
    List.Chain' (· ≤ ·)
        ((stateTrace unitEngine witnessSteps witnessSession).map (fun x => x.stream_time)) ∧
      List.Chain' (· ≤ ·)
        ((runLog unitEngine witnessSteps witnessSession).filterMap eventTime?) ∧
      (runSteps unitEngine witnessSteps witnessSession).subscribers =
        witnessSession.subscribers.map
          (fun q => q ++ runLog unitEngine witnessSteps witnessSession) :=
  by
  apply session_times_monotone
  show List.Chain' (· ≤ ·) [0, 1, 2]
  exact List.chain'_cons.mpr ⟨by norm_num,
    List.chain'_cons.mpr ⟨by norm_num, List.chain'_singleton _⟩⟩

/-- C7: `snapshot` leaves the whole Session state unchanged — VT, stream
time, last event time, pid — and broadcasts to every subscriber a `Snapshot`
event carrying the current (cols, rows) of the VT, its dump and its
newline-joined text view; the `Event.snapshot` constructor carries no time
field. -/
theorem snapshot_pure {V : Type} (E : VtEngine V) (s : Session V) :
    (s.snapshot E).vt = s.vt ∧
      (s.snapshot E).stream_time = s.stream_time ∧
      (s.snapshot E).last_event_time = s.last_event_time ∧
      (s.snapshot E).pid = s.pid ∧
      (s.snapshot E).subscribers = s.subscribers.map (fun q => q ++
        [Event.snapshot (E.size s.vt).1 (E.size s.vt).2 (E.dump s.vt)
          (String.intercalate "\n" (E.view s.vt))]) :=
  ⟨rfl, rfl, rfl, rfl, rfl⟩

/-- C10: `output`, `resize` and `snapshot` are total (the broadcast send
result is discarded with `let _ =`); with zero subscribers the send reports
an error, yet each call feeds or resizes the VT and updates `stream_time`
and `last_event_time` exactly as it does with subscribers present. -/
theorem session_ops_ignore_send_result {V : Type} (E : VtEngine V) (s : Session V)
    (time now cols rows : Nat) (data : String) :
    (broadcastSend [] (Event.output time data)).2 = .error () ∧
      (Session.output E time now data { s with subscribers := [] }).vt =
        (Session.output E time now data s).vt ∧
      (Session.output E time now data { s with subscribers := [] }).stream_time =
        (Session.output E time now data s).stream_time ∧
      (Session.output E time now data { s with subscribers := [] }).last_event_time =
        (Session.output E time now data s).last_event_time ∧
      (Session.output E time now data { s with subscribers := [] }).vt =
        E.feed_str s.vt data ∧
      (Session.resize E time now cols rows { s with subscribers := [] }).vt =
        (Session.resize E time now cols rows s).vt ∧
      (Session.resize E time now cols rows { s with subscribers := [] }).stream_time =
        (Session.resize E time now cols rows s).stream_time ∧
      (Session.resize E time now cols rows { s with subscribers := [] }).last_event_time =
        (Session.resize E time now cols rows s).last_event_time ∧
      (Session.resize E time now cols rows { s with subscribers := [] }).vt =
        E.resize s.vt cols rows ∧
      (Session.snapshot E { s with subscribers := [] }).vt = s.vt ∧
      (Session.snapshot E { s with subscribers := [] }).stream_time = s.stream_time ∧
      (Session.snapshot E { s with subscribers := [] }).last_event_time =
        s.last_event_time ∧
      ({ s with subscribers := [] } : Session V).pid = s.pid :=
  ⟨rfl, rfl, rfl, rfl, rfl, rfl, rfl, rfl, rfl, rfl, rfl, rfl, rfl⟩

/-! ## Parametric key forms and literal passthrough (claim C8) -/

/-- Whether the fallback arm of `parse_key` matches the key parametrically:
`C-` with an ASCII letter, `^` with an ASCII letter, or `A-` with any single
character.  (`C-`/`^` with a non-letter and every other shape fall through to
the literal passthrough.) -/
def isParametric (key : String) : Bool :=
  match key.data with
  | ['C', '-', k] => ('a' ≤ k && k ≤ 'z') || ('A' ≤ k && k ≤ 'Z')
  | ['^', k] => ('a' ≤ k && k ≤ 'z') || ('A' ≤ k && k ≤ 'Z')
  | ['A', '-', _] => true
  | _ => false

lemma lookup_eq_none_of_forall_ne {β : Type} (k : String) :
    ∀ l : List (String × β), (∀ e ∈ l, e.1 ≠ k) → List.lookup k l = none := by
  intro l h
  induction l with
  | nil => rfl
  | cons e rest ih =>
    obtain ⟨a, b⟩ := e
    have hne : (k == a) = false := by
      rw [beq_eq_false_iff_ne]
      exact fun hk => h (a, b) (List.mem_cons_self _ _) hk.symm
    simp only [List.lookup, hne]
    exact ih fun x hx => h x (List.mem_cons_of_mem _ hx)

set_option maxRecDepth 100000 in
lemma keyTable_no_three_char_A :
    ∀ e ∈ keyTable, ¬(e.1.data.length = 3 ∧ e.1.data.head? = some 'A') := by
  decide

lemma A_push_data (c : Char) : ("A-".push c).data = ['A', '-', c] := rfl

lemma lookup_A_push (c : Char) : List.lookup ("A-".push c) keyTable = none := by
  apply lookup_eq_none_of_forall_ne
  intro e he heq
  refine keyTable_no_three_char_A e he ?_
  rw [heq, A_push_data]
  exact ⟨rfl, rfl⟩

lemma parse_key_eq_fallback (s : String) (h : List.lookup s keyTable = none) :
    parse_key s = fallback_key s := by
  unfold parse_key
  rw [h]

lemma parse_key_A_push (c : Char) :
    parse_key ("A-".push c) = standard_key ("\x1b".push c) := by
  rw [parse_key_eq_fallback _ (lookup_A_push c)]
  unfold fallback_key
  rw [A_push_data]
  rfl

set_option maxRecDepth 100000 in
lemma parse_key_ctrl_bounded :
    ∀ n : Nat, n < 26 →
      parse_key ("C-".push (Char.ofNat (0x61 + n))) =
          standard_key (String.singleton (Char.ofNat (n + 1))) ∧
        parse_key ("C-".push (Char.ofNat (0x41 + n))) =
          standard_key (String.singleton (Char.ofNat (n + 1))) ∧
        parse_key ("^".push (Char.ofNat (0x61 + n))) =
          standard_key (String.singleton (Char.ofNat (n + 1))) ∧
        parse_key ("^".push (Char.ofNat (0x41 + n))) =
          standard_key (String.singleton (Char.ofNat (n + 1))) ∧
        strBytes (String.singleton (Char.ofNat (n + 1))) = [n + 1] := by
  decide

lemma char_eq_ofNat_of_toNat {x : Char} {b : Nat} (h : b = x.toNat) :
    x = Char.ofNat b := by
  rw [h, Char.ofNat_toNat]

lemma parse_key_passthrough (s : String) (hmem : ∀ e ∈ keyTable, e.1 ≠ s)
    (hpar : isParametric s = false) : parse_key s = standard_key s := by
  rw [parse_key_eq_fallback s (lookup_eq_none_of_forall_ne s keyTable hmem)]
  unfold isParametric at hpar
  unfold fallback_key
  split
  next k heq =>
    rw [heq] at hpar
    simp only [Bool.or_eq_false_iff] at hpar
    simp [hpar.1, hpar.2]
  next k heq =>
    rw [heq] at hpar
    simp only [Bool.or_eq_false_iff] at hpar
    simp [hpar.1, hpar.2]
  next k heq =>
    rw [heq] at hpar
    simp at hpar
  next =>
    rfl

/-- C8: the key encoder is total; `C-x` for a lowercase ASCII letter encodes
to the single byte `x − 0x60`, `C-X` for an uppercase one to `X − 0x40`,
`^x`/`^X` encode like the corresponding `C-` forms, `A-k` for any single
character `k` encodes to ESC followed by `k`, and any string matching no rule
passes through literally as its own bytes. -/
theorem parse_key_parametric_forms :
    (∀ x : Char, 0x61 ≤ x.toNat → x.toNat ≤ 0x7a →
        parse_key ("C-".push x) =
            standard_key (String.singleton (Char.ofNat (x.toNat - 0x60))) ∧
          strBytes (String.singleton (Char.ofNat (x.toNat - 0x60))) = [x.toNat - 0x60]) ∧
      (∀ x : Char, 0x41 ≤ x.toNat → x.toNat ≤ 0x5a →
        parse_key ("C-".push x) =
            standard_key (String.singleton (Char.ofNat (x.toNat - 0x40))) ∧
          strBytes (String.singleton (Char.ofNat (x.toNat - 0x40))) = [x.toNat - 0x40]) ∧
      (∀ x : Char, 0x61 ≤ x.toNat → x.toNat ≤ 0x7a →
        parse_key ("^".push x) =
          standard_key (String.singleton (Char.ofNat (x.toNat - 0x60)))) ∧
      (∀ x : Char, 0x41 ≤ x.toNat → x.toNat ≤ 0x5a →
        parse_key ("^".push x) =
          standard_key (String.singleton (Char.ofNat (x.toNat - 0x40)))) ∧
      (∀ k : Char, parse_key ("A-".push k) = standard_key ("\x1b".push k)) ∧
      (∀ s : String, s ∉ keyTable.map Prod.fst → isParametric s = false →
        parse_key s = standard_key s ∧ seqs_to_bytes [parse_key s] false = strBytes s) := by
  have hlow : ∀ x : Char, 0x61 ≤ x.toNat → x.toNat ≤ 0x7a →
      ∃ n, n < 26 ∧ x = Char.ofNat (0x61 + n) ∧ x.toNat - 0x60 = n + 1 := by
    intro x h1 h2
    exact ⟨x.toNat - 0x61, by omega, char_eq_ofNat_of_toNat (by omega), by omega⟩
  have hup : ∀ x : Char, 0x41 ≤ x.toNat → x.toNat ≤ 0x5a →
      ∃ n, n < 26 ∧ x = Char.ofNat (0x41 + n) ∧ x.toNat - 0x40 = n + 1 := by
    intro x h1 h2
    exact ⟨x.toNat - 0x41, by omega, char_eq_ofNat_of_toNat (by omega), by omega⟩
  refine ⟨?_, ?_, ?_, ?_, parse_key_A_push, ?_⟩
  · intro x h1 h2
    obtain ⟨n, hn, hx, ht⟩ := hlow x h1 h2
    rw [ht, hx]
    exact ⟨(parse_key_ctrl_bounded n hn).1, (parse_key_ctrl_bounded n hn).2.2.2.2⟩
  · intro x h1 h2
    obtain ⟨n, hn, hx, ht⟩ := hup x h1 h2
    rw [ht, hx]
    exact ⟨(parse_key_ctrl_bounded n hn).2.1, (parse_key_ctrl_bounded n hn).2.2.2.2⟩
  · intro x h1 h2
    obtain ⟨n, hn, hx, ht⟩ := hlow x h1 h2
    rw [ht, hx]
    exact (parse_key_ctrl_bounded n hn).2.2.1
  · intro x h1 h2
    obtain ⟨n, hn, hx, ht⟩ := hup x h1 h2
    rw [ht, hx]
    exact (parse_key_ctrl_bounded n hn).2.2.2.1
  · intro s hmem hpar
    have hne : ∀ e ∈ keyTable, e.1 ≠ s := by
      intro e he heq
      exact hmem (heq ▸ List.mem_map_of_mem Prod.fst he)
    have h := parse_key_passthrough s hne hpar
    refine ⟨h, ?_⟩
    rw [h]
    simp [seqs_to_bytes, seq_as_bytes, standard_key]

/-- Witness for C8 at `C-q`, `A-!` and the unrecognized string "hello". -/
theorem parse_key_parametric_forms_witness :
    (parse_key ("C-".push 'q') =
        standard_key (String.singleton (Char.ofNat ('q'.toNat - 0x60))) ∧
      strBytes (String.singleton (Char.ofNat ('q'.toNat - 0x60))) = ['q'.toNat - 0x60]) ∧
      parse_key ("A-".push '!') = standard_key ("\x1b".push '!') ∧
      parse_key "hello" = standard_key "hello" :=
  ⟨parse_key_parametric_forms.1 'q' (by decide) (by decide),
   parse_key_parametric_forms.2.2.2.2.1 '!',
   (parse_key_parametric_forms.2.2.2.2.2 "hello" (by decide) (by decide)).1⟩

end Ht
